import Mathlib

set_option maxRecDepth 100000

/-!
Shallow embedding of the Bach flower recommendation core of
`src/backend/server.py`, together with proofs about its behaviour.

Modelling conventions:
* Python floats are modelled as rationals (`ℚ`); all float values appearing
  in the source (0.8, 0.6, 2.5) are exact in ℚ.
* The sentence-transformer embedding plus `cosine_similarity` is the external
  embedding collaborator; it is modelled as an oracle
  `SimOracle : String → String → ℚ` giving the similarity of a query to an
  item's composite text.  The LLM extraction provider and TextBlob sentiment
  are likewise oracles (`LlmOracle`, `SentimentOracle`).
* `np.argsort` (ascending) is modelled as the deterministic stable sort:
  indices ordered by value, ties by index.  Python's `sorted(..., key=k,
  reverse=True)` is modelled by Mathlib's stable `List.insertionSort` with
  the relation `k b ≤ k a`, which preserves the original order of ties
  exactly as Python's stable sort does.
* Python `str.lower()` / `str.split()` are implemented structurally on the
  character list of the string (identical semantics on this ASCII catalog:
  lower-case each character, split on whitespace runs, drop empty pieces),
  and Python `set` intersection cardinalities are computed on de-duplicated
  token lists.
* The `networkx` graph is a pair of a node list and an insertion-ordered
  edge list keyed by the unordered pair of endpoints; `add_edge` on an
  existing key overwrites the weight in place (last-write-wins), as
  networkx's attribute update does.
* The global mutable `knowledge_graph` is passed explicitly: functions that
  read it take a `Graph` argument, and `initialize_knowledge_graph` is a
  `Graph → Graph` state transition that first models `knowledge_graph.clear()`.
-/

/-- One catalog item: an entry of the `BACH_REMEDIES` dict literal. -/
structure Remedy where
  name : String
  symptoms : List String
  emotional_state : String
  remedy_for : String
  category : String
  combinations : List String
  summary : String
  composition : String
  effects : String
  dosage_notes : String
deriving DecidableEq, Inhabited

/-- One pre-defined bundle: an entry of the `REMEDY_COMBINATIONS` dict
literal.  `concentrations` is the member-to-drop-count mapping. -/
structure Combo where
  name : String
  remedies : List String
  concentrations : List (String × Nat)
  total_drops : Nat
  bottle_size : String
  dosage : String
  purpose : String
  suitable_for : List String
deriving DecidableEq, Inhabited

def BACH_REMEDIES : List (String × Remedy) := [
  ("agrimony",
   { name := "Agrimony",
     symptoms := ["anxiety hidden behind cheerful mask", "inner torment", "worry concealed", "restlessness", "torture behind brave face", "mental anguish", "seeks company to avoid being alone with thoughts"],
     emotional_state := "mental torture hidden behind cheerful facade",
     remedy_for := "Those who hide worries behind a happy mask",
     category := "oversensitive",
     combinations := ["walnut", "mimulus", "white_chestnut"],
     summary := "For mental torture hidden behind a brave face, helping those who suffer inwardly while appearing cheerful outwardly",
     composition := "Agrimonia eupatoria - Common Agrimony flower essence",
     effects := "Brings authentic joy and inner peace, helps express true feelings, reduces need to hide behind false cheerfulness",
     dosage_notes := "Particularly effective when combined with Walnut for protection from external influences" }),
  ("aspen",
   { name := "Aspen",
     symptoms := ["vague fears", "apprehension", "foreboding", "unknown fears", "nightmares", "anxiety without cause", "trembling", "nervousness"],
     emotional_state := "fear of unknown things",
     remedy_for := "Vague unknown fears and anxieties",
     category := "fear",
     combinations := ["mimulus", "cherry_plum", "rock_rose"],
     summary := "For mysterious fears and apprehensions with no obvious cause, bringing courage to face the unknown",
     composition := "Populus tremula - Aspen tree essence",
     effects := "Promotes courage and security, reduces irrational fears, brings peace to the sensitive mind",
     dosage_notes := "Often combined with Mimulus for comprehensive fear treatment" }),
  ("beech",
   { name := "Beech",
     symptoms := ["intolerance", "critical", "arrogance", "lack of compassion", "judgmental", "fault-finding", "irritability"],
     emotional_state := "intolerance and criticism of others",
     remedy_for := "Intolerance and being overly critical",
     category := "overcare",
     combinations := ["willow", "impatiens", "vine"],
     summary := "For critical and intolerant attitudes, helping develop understanding and acceptance of others",
     composition := "Fagus sylvatica - Beech tree essence",
     effects := "Increases tolerance and empathy, reduces critical judgment, promotes understanding",
     dosage_notes := "Works well with Willow for releasing resentment" }),
  ("centaury",
   { name := "Centaury",
     symptoms := ["weakness of will", "subservience", "difficulty saying no", "eager to please", "easily influenced", "weak-willed", "doormat"],
     emotional_state := "inability to say no",
     remedy_for := "Those who cannot say no and are easily exploited",
     category := "oversensitive",
     combinations := ["walnut", "pine", "larch"],
     summary := "For those who are too eager to please others and cannot assert themselves, building inner strength",
     composition := "Centaurium umbellatum - Centaury flower essence",
     effects := "Strengthens will power, helps establish boundaries, promotes self-respect",
     dosage_notes := "Excellent when paired with Walnut for protection from manipulation" }),
  ("cerato",
   { name := "Cerato",
     symptoms := ["lack of confidence in own judgment", "seeks advice constantly", "doubt own decisions", "easily influenced", "intuition distrust"],
     emotional_state := "doubt in own wisdom",
     remedy_for := "Those who doubt their own judgment",
     category := "uncertainty",
     combinations := ["scleranthus", "wild_oat", "gentian"],
     summary := "For those who constantly seek others' opinions instead of trusting their own inner wisdom",
     composition := "Ceratostigma willmottiana - Cerato flower essence",
     effects := "Builds confidence in inner guidance, strengthens decision-making abilities, reduces need for constant validation",
     dosage_notes := "Often used with Scleranthus for indecisive personalities" }),
  ("cherry_plum",
   { name := "Cherry Plum",
     symptoms := ["fear of losing control", "desperation", "fear of doing something terrible", "breakdown", "hysteria", "loss of reason"],
     emotional_state := "fear of losing mental control",
     remedy_for := "Fear of losing control and desperate thoughts",
     category := "fear",
     combinations := ["rock_rose", "aspen", "sweet_chestnut"],
     summary := "For extreme mental pressure and fear of losing control, one of the key Rescue Remedy ingredients",
     composition := "Prunus cerasifera - Cherry Plum flower essence",
     effects := "Restores mental balance and calm, prevents breakdown, maintains rational thinking",
     dosage_notes := "Core ingredient in Rescue Remedy, excellent for crisis situations" }),
  ("chestnut_bud",
   { name := "Chestnut Bud",
     symptoms := ["failure to learn from experience", "repeating mistakes", "lack of observation", "carelessness", "inattention"],
     emotional_state := "failure to learn from mistakes",
     remedy_for := "Those who repeat the same mistakes",
     category := "insufficient_interest",
     combinations := ["honeysuckle", "clematis", "wild_rose"],
     summary := "For those who fail to learn from experience and keep making the same mistakes",
     composition := "Aesculus hippocastanum - Horse Chestnut bud essence",
     effects := "Improves learning ability, increases awareness, helps break negative patterns",
     dosage_notes := "Combines well with Clematis for better focus and attention" }),
  ("chicory",
   { name := "Chicory",
     symptoms := ["possessiveness", "selfishness", "manipulation", "self-pity", "attention seeking", "controlling", "conditional love"],
     emotional_state := "selfish possessive love",
     remedy_for := "Possessive love and self-centered care",
     category := "overcare",
     combinations := ["heather", "willow", "beech"],
     summary := "For possessive and manipulative behavior disguised as love and care for others",
     composition := "Cichorium intybus - Wild Chicory flower essence",
     effects := "Promotes unconditional love, reduces possessiveness, encourages selfless service",
     dosage_notes := "Often paired with Heather for those seeking constant attention" }),
  ("clematis",
   { name := "Clematis",
     symptoms := ["dreamy", "absent-minded", "lack of interest in present", "escapism", "drowsiness", "inattention", "living in future"],
     emotional_state := "dreamy inattention to present",
     remedy_for := "Dreaminess and lack of interest in present",
     category := "insufficient_interest",
     combinations := ["wild_rose", "chestnut_bud", "honeysuckle"],
     summary := "For dreamers and escapists who live in their imagination rather than reality, a Rescue Remedy ingredient",
     composition := "Clematis vitalba - Wild Clematis flower essence",
     effects := "Brings grounding and practical focus, increases interest in life, improves concentration",
     dosage_notes := "Key ingredient in Rescue Remedy for shock-induced withdrawal" }),
  ("crab_apple",
   { name := "Crab Apple",
     symptoms := ["self-disgust", "feeling unclean", "shame", "poor self-image", "obsession with details", "perfectionism"],
     emotional_state := "self-hatred and disgust",
     remedy_for := "Self-disgust and feeling unclean",
     category := "despondency",
     combinations := ["pine", "larch", "elm"],
     summary := "The cleansing remedy for those who feel contaminated or obsessed with imperfection",
     composition := "Malus pumila - Wild Crab Apple flower essence",
     effects := "Promotes self-acceptance, cleanses negative self-perception, reduces obsessive behavior",
     dosage_notes := "Excellent with Pine for guilt-related self-hatred" }),
  ("elm",
   { name := "Elm",
     symptoms := ["overwhelm", "temporary inadequacy", "responsibility burden", "momentary loss of confidence", "feeling inadequate"],
     emotional_state := "overwhelmed by responsibility",
     remedy_for := "Temporary feelings of being overwhelmed",
     category := "despondency",
     combinations := ["oak", "olive", "hornbeam"],
     summary := "For capable people temporarily overwhelmed by responsibilities and duties",
     composition := "Ulmus procera - English Elm flower essence",
     effects := "Restores confidence in abilities, provides strength during challenging periods",
     dosage_notes := "Often combined with Oak for chronic overwork patterns" }),
  ("gentian",
   { name := "Gentian",
     symptoms := ["discouragement", "doubt", "setbacks affect easily", "pessimism", "depression from known cause"],
     emotional_state := "discouragement from setbacks",
     remedy_for := "Discouragement and doubt from known causes",
     category := "uncertainty",
     combinations := ["gorse", "mustard", "cerato"],
     summary := "For discouragement after setbacks, doubt when progress is slow",
     composition := "Gentianella amarella - Autumn Gentian flower essence",
     effects := "Restores faith and perseverance, helps overcome temporary setbacks",
     dosage_notes := "Works well with Gorse for deeper depression" }),
  ("gorse",
   { name := "Gorse",
     symptoms := ["hopelessness", "despair", "giving up", "no faith in recovery", "pessimism", "lost hope"],
     emotional_state := "hopelessness and despair",
     remedy_for := "Great hopelessness and despair",
     category := "uncertainty",
     combinations := ["sweet_chestnut", "gentian", "wild_rose"],
     summary := "For deep hopelessness when all seems lost, bringing light into darkness",
     composition := "Ulex europaeus - Gorse flower essence",
     effects := "Rekindles hope and faith, brings light to dark periods",
     dosage_notes := "Essential in depression support combinations" }),
  ("heather",
   { name := "Heather",
     symptoms := ["self-centered", "talkative", "attention seeking", "loneliness", "poor listener", "self-obsessed"],
     emotional_state := "self-centered talkativeness",
     remedy_for := "Self-centeredness and constant need for attention",
     category := "loneliness",
     combinations := ["chicory", "impatiens", "water_violet"],
     summary := "For those who constantly talk about themselves and seek attention",
     composition := "Calluna vulgaris - Heather flower essence",
     effects := "Promotes genuine interest in others, reduces self-obsession",
     dosage_notes := "Often paired with Water Violet for social balance" }),
  ("holly",
   { name := "Holly",
     symptoms := ["hatred", "jealousy", "envy", "revenge", "suspicion", "anger", "vexation"],
     emotional_state := "hatred and jealousy",
     remedy_for := "Hatred, envy, jealousy and revenge",
     category := "oversensitive",
     combinations := ["willow", "beech", "vine"],
     summary := "For negative emotions like hatred, jealousy, and envy, opening the heart to love",
     composition := "Ilex aquifolium - Holly flower essence",
     effects := "Opens heart to love, dissolves negative emotions, promotes compassion",
     dosage_notes := "Powerful remedy often used alone or with Willow" }),
  ("honeysuckle",
   { name := "Honeysuckle",
     symptoms := ["living in past", "nostalgia", "regret", "homesickness", "dwelling on past", "loss of interest in present"],
     emotional_state := "living in the past",
     remedy_for := "Living in the past and nostalgia",
     category := "insufficient_interest",
     combinations := ["clematis", "wild_rose", "chestnut_bud"],
     summary := "For those stuck in the past, unable to move forward with their lives",
     composition := "Lonicera caprifolium - Honeysuckle flower essence",
     effects := "Helps release the past, brings focus to present opportunities",
     dosage_notes := "Often combined with Clematis for time-related issues" }),
  ("hornbeam",
   { name := "Hornbeam",
     symptoms := ["mental fatigue", "procrastination", "tiredness before starting", "doubt in ability to cope", "weariness"],
     emotional_state := "mental weariness",
     remedy_for := "Mental fatigue and procrastination",
     category := "uncertainty",
     combinations := ["olive", "elm", "oak"],
     summary := "For mental tiredness and the Monday morning feeling",
     composition := "Carpinus betulus - Hornbeam flower essence",
     effects := "Restores mental energy and enthusiasm, overcomes procrastination",
     dosage_notes := "Excellent with Olive for complete exhaustion" }),
  ("impatiens",
   { name := "Impatiens",
     symptoms := ["impatience", "irritability", "hasty", "tension", "intolerance of slow pace", "quick thinking"],
     emotional_state := "impatience and irritability",
     remedy_for := "Impatience and irritability with others",
     category := "loneliness",
     combinations := ["beech", "heather", "vine"],
     summary := "For quick-thinking people who are impatient with slower minds, a Rescue Remedy ingredient",
     composition := "Impatiens glandulifera - Impatiens flower essence",
     effects := "Promotes patience and gentleness, reduces tension and irritability",
     dosage_notes := "Core ingredient in Rescue Remedy for tension relief" }),
  ("larch",
   { name := "Larch",
     symptoms := ["lack of confidence", "expects failure", "inferiority complex", "hesitation", "despondency"],
     emotional_state := "lack of confidence",
     remedy_for := "Lack of confidence and expectation of failure",
     category := "despondency",
     combinations := ["cerato", "centaury", "pine"],
     summary := "For those who expect to fail and lack confidence in their abilities",
     composition := "Larix decidua - Larch flower essence",
     effects := "Builds self-confidence, encourages taking risks, promotes self-belief",
     dosage_notes := "Essential in confidence-building combinations" }),
  ("mimulus",
   { name := "Mimulus",
     symptoms := ["fear of known things", "shyness", "timidity", "nervousness", "anxiety about specific things", "phobias"],
     emotional_state := "fear of known things",
     remedy_for := "Fear of known things and shyness",
     category := "fear",
     combinations := ["aspen", "larch", "agrimony"],
     summary := "For everyday fears and anxieties about known things",
     composition := "Mimulus guttatus - Monkey Flower essence",
     effects := "Promotes courage and confidence, reduces specific fears and phobias",
     dosage_notes := "Often paired with Aspen for comprehensive fear treatment" }),
  ("mustard",
   { name := "Mustard",
     symptoms := ["depression without cause", "gloom", "melancholy", "sadness", "dark cloud feeling"],
     emotional_state := "deep depression without reason",
     remedy_for := "Deep depression that comes and goes without reason",
     category := "insufficient_interest",
     combinations := ["gentian", "gorse", "sweet_chestnut"],
     summary := "For deep gloom and depression that descends like a dark cloud",
     composition := "Sinapis arvensis - Wild Mustard flower essence",
     effects := "Brings joy and light, lifts depression and melancholy",
     dosage_notes := "Key remedy in depression support blends" }),
  ("oak",
   { name := "Oak",
     symptoms := ["exhaustion but keeps going", "never gives up", "duty bound", "stubborn persistence", "overwork"],
     emotional_state := "exhausted but struggling on",
     remedy_for := "Those who struggle on despite exhaustion",
     category := "despondency",
     combinations := ["elm", "olive", "hornbeam"],
     summary := "For strong, reliable people who never give up but are reaching their limits",
     composition := "Quercus robur - Oak flower essence",
     effects := "Restores strength and flexibility, helps recognize limits",
     dosage_notes := "Essential for stress and overwhelm combinations" }),
  ("olive",
   { name := "Olive",
     symptoms := ["complete exhaustion", "drained", "no reserves left", "worn out", "fatigue"],
     emotional_state := "complete mental and physical exhaustion",
     remedy_for := "Complete exhaustion of mind and body",
     category := "insufficient_interest",
     combinations := ["oak", "elm", "hornbeam"],
     summary := "For complete physical and mental exhaustion after long struggle",
     composition := "Olea europaea - Olive flower essence",
     effects := "Restores vitality and energy, promotes peaceful recovery",
     dosage_notes := "Often used with Oak for chronic exhaustion patterns" }),
  ("pine",
   { name := "Pine",
     symptoms := ["guilt", "self-reproach", "blame self for others' mistakes", "never satisfied with efforts", "apologetic"],
     emotional_state := "guilt and self-reproach",
     remedy_for := "Guilt and self-reproach",
     category := "despondency",
     combinations := ["crab_apple", "larch", "centaury"],
     summary := "For guilt, self-blame, and those who are never satisfied with their efforts",
     composition := "Pinus sylvestris - Scots Pine flower essence",
     effects := "Promotes self-forgiveness and realistic self-assessment",
     dosage_notes := "Excellent with Crab Apple for self-criticism" }),
  ("red_chestnut",
   { name := "Red Chestnut",
     symptoms := ["excessive worry for others", "fearful for loved ones", "anxiety for others' wellbeing", "over-concern"],
     emotional_state := "excessive concern for others",
     remedy_for := "Excessive worry and fear for others",
     category := "overcare",
     combinations := ["chicory", "vine", "beech"],
     summary := "For anxious over-concern for the welfare of loved ones",
     composition := "Aesculus carnea - Red Chestnut flower essence",
     effects := "Promotes calm concern without anxiety, sends positive thoughts",
     dosage_notes := "Often needed by parents and caregivers" }),
  ("rescue_remedy",
   { name := "Rescue Remedy",
     symptoms := ["emergency", "trauma", "shock", "panic", "crisis", "stress", "accident"],
     emotional_state := "emergency and crisis situations",
     remedy_for := "Emergency situations, trauma, shock and crisis",
     category := "emergency",
     combinations := ["rock_rose", "impatiens", "cherry_plum", "star_of_bethlehem", "clematis"],
     summary := "The famous five-flower emergency blend for crisis and trauma situations",
     composition := "Rock Rose + Impatiens + Cherry Plum + Star of Bethlehem + Clematis",
     effects := "Provides immediate comfort and stability during crisis",
     dosage_notes := "Can be used frequently during emergency situations" }),
  ("rock_rose",
   { name := "Rock Rose",
     symptoms := ["terror", "panic", "nightmare", "extreme fear", "helplessness", "emergency"],
     emotional_state := "extreme terror and panic",
     remedy_for := "Terror, panic and extreme fear",
     category := "fear",
     combinations := ["cherry_plum", "aspen", "mimulus"],
     summary := "For extreme fear, terror and panic states, a Rescue Remedy ingredient",
     composition := "Helianthemum nummularium - Rock Rose flower essence",
     effects := "Provides courage in extreme fear, brings calm to panic",
     dosage_notes := "Core ingredient in Rescue Remedy for emergency situations" }),
  ("rock_water",
   { name := "Rock Water",
     symptoms := ["self-denial", "rigidity", "self-discipline", "hard on self", "strict principles", "inflexibility"],
     emotional_state := "rigid self-discipline",
     remedy_for := "Self-denial and rigid adherence to principles",
     category := "overcare",
     combinations := ["vine", "beech", "oak"],
     summary := "For those who are hard on themselves with rigid self-discipline",
     composition := "Natural spring water from healing wells",
     effects := "Promotes flexibility and self-compassion, maintains ideals without rigidity",
     dosage_notes := "Unique non-flower remedy made from natural spring water" }),
  ("scleranthus",
   { name := "Scleranthus",
     symptoms := ["indecision", "uncertainty between choices", "mood swings", "hesitation", "vacillation"],
     emotional_state := "indecision between alternatives",
     remedy_for := "Indecision and uncertainty between two choices",
     category := "uncertainty",
     combinations := ["cerato", "wild_oat", "gentian"],
     summary := "For indecision and uncertainty when torn between two choices",
     composition := "Scleranthus annuus - Scleranthus flower essence",
     effects := "Brings clarity and determination, stabilizes mood swings",
     dosage_notes := "Essential for decision-making difficulties" }),
  ("star_of_bethlehem",
   { name := "Star of Bethlehem",
     symptoms := ["shock", "trauma", "grief", "distress", "after-effects of shock", "comfort"],
     emotional_state := "shock and trauma",
     remedy_for := "Shock, trauma and grief",
     category := "despondency",
     combinations := ["sweet_chestnut", "willow", "pine"],
     summary := "The great comforter for shock and trauma, a Rescue Remedy ingredient",
     composition := "Ornithogalum umbellatum - Star of Bethlehem flower essence",
     effects := "Heals effects of shock and trauma, provides comfort and healing",
     dosage_notes := "Core ingredient in Rescue Remedy and grief support blends" }),
  ("sweet_chestnut",
   { name := "Sweet Chestnut",
     symptoms := ["extreme mental anguish", "despair", "limit of endurance", "dark night of soul", "hopelessness"],
     emotional_state := "extreme mental anguish",
     remedy_for := "Extreme mental anguish and despair",
     category := "despondency",
     combinations := ["gorse", "cherry_plum", "star_of_bethlehem"],
     summary := "For extreme mental anguish when all seems hopeless",
     composition := "Castanea sativa - Sweet Chestnut flower essence",
     effects := "Brings hope in darkest moments, provides strength to endure",
     dosage_notes := "Used in severe depression and crisis support" }),
  ("vervain",
   { name := "Vervain",
     symptoms := ["over-enthusiasm", "fanaticism", "strain", "tension", "fixed ideas", "missionary zeal"],
     emotional_state := "over-enthusiasm and strain",
     remedy_for := "Over-enthusiasm and fixed ideas",
     category := "overcare",
     combinations := ["vine", "impatiens", "beech"],
     summary := "For over-enthusiastic people who strain themselves with their convictions",
     composition := "Verbena officinalis - Vervain flower essence",
     effects := "Promotes relaxation and tolerance, moderates excessive enthusiasm",
     dosage_notes := "Often needed by activists and passionate individuals" }),
  ("vine",
   { name := "Vine",
     symptoms := ["dominating", "inflexible", "tyrannical", "arrogant", "ruthless", "ambitious", "leadership"],
     emotional_state := "domination and inflexibility",
     remedy_for := "Dominating behavior and inflexibility",
     category := "overcare",
     combinations := ["beech", "vervain", "impatiens"],
     summary := "For natural leaders who become dominating and inflexible",
     composition := "Vitis vinifera - Vine flower essence",
     effects := "Promotes wise leadership without domination, increases flexibility",
     dosage_notes := "Important for authority figures and leaders" }),
  ("walnut",
   { name := "Walnut",
     symptoms := ["influenced by others", "life changes", "transition", "protection from change", "easily led"],
     emotional_state := "influenced by change and others",
     remedy_for := "Protection during change and transition",
     category := "oversensitive",
     combinations := ["centaury", "cerato", "agrimony"],
     summary := "The link-breaker for protection during major life changes",
     composition := "Juglans regia - English Walnut flower essence",
     effects := "Provides protection from outside influences, supports transitions",
     dosage_notes := "Essential during major life changes and transitions" }),
  ("water_violet",
   { name := "Water Violet",
     symptoms := ["pride", "aloofness", "superiority", "independence", "withdrawn", "self-reliant"],
     emotional_state := "proud aloofness",
     remedy_for := "Pride and aloof superiority",
     category := "loneliness",
     combinations := ["impatiens", "heather", "vine"],
     summary := "For proud, aloof people who prefer their own company",
     composition := "Hottonia palustris - Water Violet flower essence",
     effects := "Promotes sharing and connection while maintaining dignity",
     dosage_notes := "Helps balance independence with social connection" }),
  ("white_chestnut",
   { name := "White Chestnut",
     symptoms := ["persistent thoughts", "mental arguments", "worrying thoughts", "insomnia", "racing mind"],
     emotional_state := "persistent unwanted thoughts",
     remedy_for := "Persistent unwanted thoughts and mental arguments",
     category := "insufficient_interest",
     combinations := ["agrimony", "clematis", "mustard"],
     summary := "For persistent unwanted thoughts and mental chatter",
     composition := "Aesculus hippocastanum - White Chestnut flower essence",
     effects := "Brings mental peace and clarity, stops repetitive thoughts",
     dosage_notes := "Essential in sleep support and anxiety blends" }),
  ("wild_oat",
   { name := "Wild Oat",
     symptoms := ["uncertainty about life path", "ambition without direction", "dissatisfaction", "unclear goals"],
     emotional_state := "uncertainty about life direction",
     remedy_for := "Uncertainty about life direction and goals",
     category := "uncertainty",
     combinations := ["scleranthus", "cerato", "gentian"],
     summary := "For those who are uncertain about their life direction and calling",
     composition := "Bromus ramosus - Wild Oat flower essence",
     effects := "Brings clarity about life purpose and direction",
     dosage_notes := "Important for career and life direction decisions" }),
  ("wild_rose",
   { name := "Wild Rose",
     symptoms := ["apathy", "resignation", "lack of interest", "drift through life", "no effort", "acceptance of fate"],
     emotional_state := "resignation and apathy",
     remedy_for := "Apathy and resignation to circumstances",
     category := "insufficient_interest",
     combinations := ["clematis", "honeysuckle", "gorse"],
     summary := "For apathy and resignation when interest in life is lost",
     composition := "Rosa canina - Wild Rose flower essence",
     effects := "Rekindles interest and vitality, motivates positive action",
     dosage_notes := "Important in depression support combinations" }),
  ("willow",
   { name := "Willow",
     symptoms := ["resentment", "bitterness", "self-pity", "victim mentality", "blame others", "grudges"],
     emotional_state := "resentment and bitterness",
     remedy_for := "Resentment and bitter thoughts",
     category := "despondency",
     combinations := ["holly", "beech", "chicory"],
     summary := "For resentment, bitterness and the 'poor me' attitude",
     composition := "Salix vitellina - Golden Willow flower essence",
     effects := "Promotes forgiveness and personal responsibility, releases resentment",
     dosage_notes := "Often paired with Holly for negative emotions" })
]

def REMEDY_COMBINATIONS : List (String × Combo) := [
  ("anxiety_relief",
   { name := "Anxiety Relief Blend",
     remedies := ["cherry_plum", "rock_rose", "white_chestnut", "aspen", "mimulus"],
     concentrations := [("cherry_plum", 2), ("rock_rose", 2), ("white_chestnut", 2), ("aspen", 2), ("mimulus", 2)],
     total_drops := 10,
     bottle_size := "30ml",
     dosage := "4 drops, 4 times daily",
     purpose := "Comprehensive anxiety management covering panic, worry, and unknown fears",
     suitable_for := ["panic attacks", "general anxiety", "worry", "fear", "nervous tension"] }),
  ("depression_support",
   { name := "Depression Support Blend",
     remedies := ["gentian", "gorse", "mustard", "sweet_chestnut", "wild_rose"],
     concentrations := [("gentian", 2), ("gorse", 2), ("mustard", 2), ("sweet_chestnut", 2), ("wild_rose", 2)],
     total_drops := 10,
     bottle_size := "30ml",
     dosage := "4 drops, 4 times daily",
     purpose := "Support for various types of depression and despair",
     suitable_for := ["hopelessness", "discouragement", "deep sadness", "despair", "apathy"] }),
  ("stress_overwhelm",
   { name := "Stress & Overwhelm Blend",
     remedies := ["elm", "oak", "agrimony", "white_chestnut", "olive"],
     concentrations := [("elm", 2), ("oak", 2), ("agrimony", 2), ("white_chestnut", 2), ("olive", 2)],
     total_drops := 10,
     bottle_size := "30ml",
     dosage := "4 drops, 4 times daily",
     purpose := "For overwhelmed, overworked, and exhausted individuals",
     suitable_for := ["work stress", "overwhelm", "exhaustion", "responsibility burden", "mental fatigue"] }),
  ("sleep_support",
   { name := "Sleep Support Blend",
     remedies := ["white_chestnut", "agrimony", "aspen", "rock_rose"],
     concentrations := [("white_chestnut", 2), ("agrimony", 2), ("aspen", 2), ("rock_rose", 2)],
     total_drops := 8,
     bottle_size := "30ml",
     dosage := "4 drops before bed, repeat if needed",
     purpose := "Calming the mind for better sleep",
     suitable_for := ["insomnia", "racing thoughts", "nighttime anxiety", "restless sleep"] }),
  ("confidence_building",
   { name := "Confidence Building Blend",
     remedies := ["larch", "cerato", "centaury", "pine", "walnut"],
     concentrations := [("larch", 2), ("cerato", 2), ("centaury", 2), ("pine", 2), ("walnut", 2)],
     total_drops := 10,
     bottle_size := "30ml",
     dosage := "4 drops, 4 times daily",
     purpose := "Building self-confidence and inner strength",
     suitable_for := ["low self-esteem", "lack of confidence", "self-doubt", "people-pleasing"] }),
  ("grief_healing",
   { name := "Grief Healing Blend",
     remedies := ["star_of_bethlehem", "sweet_chestnut", "willow", "honeysuckle"],
     concentrations := [("star_of_bethlehem", 2), ("sweet_chestnut", 2), ("willow", 2), ("honeysuckle", 2)],
     total_drops := 8,
     bottle_size := "30ml",
     dosage := "4 drops, 4 times daily",
     purpose := "Support during grief and loss",
     suitable_for := ["loss", "bereavement", "trauma", "shock", "emotional pain"] })
]

/-! ## Tokenisation (Python `text.lower().split()`) -/

/-- Split a character list on whitespace runs, dropping empty pieces: the
semantics of Python `str.split()` with no separator argument.  `acc` holds
the characters of the current word, reversed. -/
def splitWsAux : List Char → List Char → List (List Char)
  | [], acc => if acc = [] then [] else [acc.reverse]
  | c :: cs, acc =>
    if c.isWhitespace then
      if acc = [] then splitWsAux cs [] else acc.reverse :: splitWsAux cs []
    else splitWsAux cs (c :: acc)

/-- Python `s.lower().split()`: lower-case, then split on whitespace runs. -/
def pyWords (s : String) : List String :=
  (splitWsAux (s.data.map Char.toLower) []).map String.mk

/-- Python `set(s.lower().split())`, as a de-duplicated token list (the order
is irrelevant: only membership and intersection cardinalities are used). -/
def tokenSet (s : String) : List String :=
  (pyWords s).dedup

/-- `len(a ∩ set(ws))` for a de-duplicated token list `a`: the number of
distinct tokens of `a` that occur in `ws`. -/
def countInter (a ws : List String) : Nat :=
  (a.filter (· ∈ ws)).length

/-! ## The relationship graph (`networkx.Graph`) -/

/-- The knowledge graph: node keys plus an insertion-ordered edge list keyed
by the unordered endpoint pair (normalised by `normPair`) carrying the
`weight` attribute. -/
structure Graph where
  nodes : List String
  edges : List ((String × String) × ℚ)
deriving DecidableEq, Inhabited

/-- The canonical key of the undirected edge `{u, v}`. -/
def normPair (u v : String) : String × String :=
  if u ≤ v then (u, v) else (v, u)

/-- Set the weight of key `k`, overwriting in place when the key is present
(networkx `add_edge` on an existing edge updates its attributes and keeps
its position) and appending otherwise. -/
def setWeight : List ((String × String) × ℚ) → String × String → ℚ →
    List ((String × String) × ℚ)
  | [], k, w => [(k, w)]
  | e :: es, k, w => if e.1 = k then (k, w) :: es else e :: setWeight es k w

/-- Look up the stored weight of key `k`. -/
def lookupWeight : List ((String × String) × ℚ) → String × String → Option ℚ
  | [], _ => none
  | e :: es, k => if e.1 = k then some e.2 else lookupWeight es k

/-- `add_node`: append the node key if it is new (attribute payloads are
kept in the catalog itself and never read back from the graph). -/
def Graph.addNode (g : Graph) (v : String) : Graph :=
  if v ∈ g.nodes then g else { g with nodes := g.nodes ++ [v] }

/-- `add_edge(u, v, weight := w)`: ensure both endpoints are nodes and store
`w` under the unordered key. -/
def Graph.addEdge (g : Graph) (u v : String) (w : ℚ) : Graph :=
  { nodes := ((g.addNode u).addNode v).nodes
    edges := setWeight g.edges (normPair u v) w }

/-- The stored weight of the undirected edge `{u, v}`. -/
def edgeWeight (g : Graph) (u v : String) : Option ℚ :=
  lookupWeight g.edges (normPair u v)

/-- `knowledge_graph.clear()`. -/
def Graph.clear (_ : Graph) : Graph := ⟨[], []⟩

/-- `G.has_node v`. -/
def Graph.hasNode (g : Graph) (v : String) : Prop := v ∈ g.nodes

instance (g : Graph) (v : String) : Decidable (g.hasNode v) :=
  inferInstanceAs (Decidable (v ∈ g.nodes))

/-- `list(G.neighbors v)`: the opposite endpoints of the edges incident to
`v`, in edge insertion order (networkx adjacency iteration order). -/
def Graph.neighbors (g : Graph) (v : String) : List String :=
  g.edges.filterMap fun e =>
    if e.1.1 = v then some e.1.2 else if e.1.2 = v then some e.1.1 else none

/-- The `combinations` pass of `initialize_knowledge_graph` for one remedy:
`for combination in remedy_data['combinations']: if combination in
BACH_REMEDIES: add_edge(remedy_id, combination, weight=0.8)`. -/
def addCombinationEdges (catalog : List (String × Remedy)) (g : Graph)
    (remedy_id : String) (remedy_data : Remedy) : Graph :=
  remedy_data.combinations.foldl
    (fun g combination =>
      if combination ∈ catalog.map Prod.fst then
        g.addEdge remedy_id combination 0.8
      else g) g

/-- The category pass of `initialize_knowledge_graph` for one remedy:
`for other_id, other_data in BACH_REMEDIES.items(): if other_id != remedy_id
and other_data['category'] == category: add_edge(remedy_id, other_id,
weight=0.6)`. -/
def addCategoryEdges (catalog : List (String × Remedy)) (g : Graph)
    (remedy_id : String) (remedy_data : Remedy) : Graph :=
  catalog.foldl
    (fun g other =>
      if other.1 ≠ remedy_id ∧ other.2.category = remedy_data.category then
        g.addEdge remedy_id other.1 0.6
      else g) g

/-- The body of `initialize_knowledge_graph`'s outer loop for one remedy:
add the node, then its association edges, then its category edges. -/
def graphStep (catalog : List (String × Remedy)) (g : Graph)
    (entry : String × Remedy) : Graph :=
  addCategoryEdges catalog
    (addCombinationEdges catalog (g.addNode entry.1) entry.1 entry.2)
    entry.1 entry.2

/-- The whole loop of `initialize_knowledge_graph` over a catalog, starting
from graph `g0`. -/
def buildKnowledgeGraph (catalog : List (String × Remedy)) (g0 : Graph) :
    Graph :=
  catalog.foldl (graphStep catalog) g0

/-- `initialize_knowledge_graph()`: clear the global graph, then rebuild it
from `BACH_REMEDIES` (also reached through the admin rebuild endpoint). -/
def initialize_knowledge_graph (g : Graph) : Graph :=
  buildKnowledgeGraph BACH_REMEDIES g.clear

/-! ## External collaborators as oracles -/

/-- The embedding collaborator composed with cosine similarity:
`cosine_similarity(encode([query]), encode([item_text]))`, as a
query-text × item-text → similarity oracle. -/
abbrev SimOracle : Type := String → String → ℚ

/-- The LLM extraction provider: prompt → response, or a failure. -/
abbrev LlmOracle : Type := String → Except String String

/-- TextBlob sentiment: text → (polarity, subjectivity). -/
abbrev SentimentOracle : Type := String → ℚ × ℚ

/-- Dict lookup `BACH_REMEDIES[remedy_id]` / `BACH_REMEDIES.get(remedy_id)`. -/
def lookupRemedy (remedy_id : String) : Option Remedy :=
  (BACH_REMEDIES.find? (fun p => p.1 == remedy_id)).map Prod.snd

/-- Dict lookup into `REMEDY_COMBINATIONS`. -/
def lookupCombo (combination_id : String) : Option Combo :=
  (REMEDY_COMBINATIONS.find? (fun p => p.1 == combination_id)).map Prod.snd

/-! ## Vector matcher (`find_vector_matches`) -/

/-- Python `round()` on an exact value: round half to even (banker's
rounding), the semantics of `round(float)`. -/
def pyRound (q : ℚ) : ℤ :=
  if q - ⌊q⌋ < 1/2 then ⌊q⌋
  else if 1/2 < q - ⌊q⌋ then ⌊q⌋ + 1
  else if ⌊q⌋ % 2 = 0 then ⌊q⌋ else ⌊q⌋ + 1

/-- `min(10, max(1, round(similarity * 10)))`. -/
def relevanceOfSim (similarity : ℚ) : ℤ :=
  min 10 (max 1 (pyRound (similarity * 10)))

/-- The composite item text embedded for one remedy:
`f"{' '.join(symptoms)} {emotional_state} {remedy_for}"`. -/
def remedyText (r : Remedy) : String :=
  String.intercalate " " r.symptoms ++ " " ++ r.emotional_state ++ " " ++ r.remedy_for

/-- The similarity list over the catalog, in catalog iteration order. -/
def simList (sim : SimOracle) (query_symptoms : String) : List ℚ :=
  (BACH_REMEDIES.map fun p => remedyText p.2).map (sim query_symptoms)

/-- The comparison `np.argsort` sorts indices by: value ascending, ties by
index ascending (the deterministic stable reading of `argsort`). -/
def simLex (vals : List ℚ) (i j : ℕ) : Prop :=
  vals.getD i 0 < vals.getD j 0 ∨ (vals.getD i 0 = vals.getD j 0 ∧ i ≤ j)

instance (vals : List ℚ) : DecidableRel (simLex vals) := fun i j =>
  inferInstanceAs (Decidable (_ ∨ _))

/-- `np.argsort(vals)`: the index list sorted ascending. -/
def argsortAsc (vals : List ℚ) : List ℕ :=
  List.insertionSort (simLex vals) (List.range vals.length)

/-- `np.argsort(similarities)[-top_k:][::-1]`.  Python's `a[-k:]` is the
whole list when `k = 0` (since `a[-0:] = a[0:]`) and the last
`min k (len a)` elements otherwise. -/
def topIndices (vals : List ℚ) (top_k : ℕ) : List ℕ :=
  (if top_k = 0 then argsortAsc vals
   else (argsortAsc vals).drop ((argsortAsc vals).length - top_k)).reverse

/-- An entry of a vector match's `related_remedies` list. -/
structure RelatedRemedy where
  id : String
  name : String
  summary : String
deriving DecidableEq, Inhabited

/-- One result dict of `find_vector_matches`. -/
structure VectorMatch where
  remedy_id : String
  remedy_name : String
  similarity_score : ℚ
  relevance_score : ℤ
  symptoms : List String
  remedy_for : String
  category : String
  summary : String
  composition : String
  effects : String
  related_remedies : List RelatedRemedy
  method : String
deriving DecidableEq, Inhabited

/-- The match dict built for catalog position `idx`. -/
def mkVectorMatch (vals : List ℚ) (idx : ℕ) : VectorMatch :=
  let entry := BACH_REMEDIES.getD idx ("", default)
  let remedy_data := entry.2
  { remedy_id := entry.1
    remedy_name := remedy_data.name
    similarity_score := vals.getD idx 0
    relevance_score := relevanceOfSim (vals.getD idx 0)
    symptoms := remedy_data.symptoms
    remedy_for := remedy_data.remedy_for
    category := remedy_data.category
    summary := remedy_data.summary
    composition := remedy_data.composition
    effects := remedy_data.effects
    related_remedies := remedy_data.combinations.filterMap fun combo_id =>
      (lookupRemedy combo_id).map fun cd => ⟨combo_id, cd.name, cd.summary⟩
    method := "vector_similarity" }

/-- `find_vector_matches(query_symptoms, top_k)`. -/
def find_vector_matches (sim : SimOracle) (query_symptoms : String)
    (top_k : ℕ) : List VectorMatch :=
  (topIndices (simList sim query_symptoms) top_k).map
    (mkVectorMatch (simList sim query_symptoms))

/-! ## Lexical matcher (`find_knowledge_graph_matches`) -/

/-- The raw lexical score of one remedy against the query token set:
`2·|query ∩ symptom words| + 3·|query ∩ emotional words|
+ 2.5·|query ∩ remedy_for words|`. -/
def lexicalScore (symptom_words : List String) (r : Remedy) : ℚ :=
  2 * (countInter symptom_words (pyWords (String.intercalate " " r.symptoms)) : ℚ)
    + 3 * (countInter symptom_words (pyWords r.emotional_state) : ℚ)
    + 2.5 * (countInter symptom_words (pyWords r.remedy_for) : ℚ)

/-- The `scores` dict of `find_knowledge_graph_matches`, as an association
list in catalog (= dict insertion) order. -/
def lexScores (symptoms : String) : List (String × ℚ) :=
  BACH_REMEDIES.map fun p => (p.1, lexicalScore (tokenSet symptoms) p.2)

/-- An entry of a lexical match's `connected_remedies` list. -/
structure ConnectedRemedy where
  id : String
  name : String
  summary : String
deriving DecidableEq, Inhabited

/-- One result dict of `find_knowledge_graph_matches`. -/
structure GraphMatch where
  remedy_id : String
  remedy_name : String
  raw_score : ℚ
  relevance_score : ℤ
  symptoms : List String
  remedy_for : String
  category : String
  summary : String
  composition : String
  effects : String
  connected_remedies : List ConnectedRemedy
  method : String
deriving DecidableEq, Inhabited

/-- The match dict built for one surviving remedy. -/
def mkGraphMatch (g : Graph) (remedy_id : String) (raw_score : ℚ) :
    GraphMatch :=
  let remedy_data := (lookupRemedy remedy_id).getD default
  { remedy_id := remedy_id
    remedy_name := remedy_data.name
    raw_score := raw_score
    relevance_score := min 10 (max 1 (pyRound (raw_score / 2)))
    symptoms := remedy_data.symptoms
    remedy_for := remedy_data.remedy_for
    category := remedy_data.category
    summary := remedy_data.summary
    composition := remedy_data.composition
    effects := remedy_data.effects
    connected_remedies :=
      if g.hasNode remedy_id then
        ((g.neighbors remedy_id).take 3).filterMap fun neighbor =>
          (lookupRemedy neighbor).map fun nd => ⟨neighbor, nd.name, nd.summary⟩
      else []
    method := "knowledge_graph" }

/-- `find_knowledge_graph_matches(symptoms, top_k)`: score every remedy,
stable-sort descending by raw score (`sorted(..., key=score,
reverse=True)`), keep the first `top_k`, and keep only those with raw
score `> 0`. -/
def find_knowledge_graph_matches (g : Graph) (symptoms : String)
    (top_k : ℕ) : List GraphMatch :=
  (((lexScores symptoms).insertionSort fun a b => b.2 ≤ a.2).take top_k).filterMap
    fun p => if 0 < p.2 then some (mkGraphMatch g p.1 p.2) else none

/-! ## Bundle recommender (`suggest_remedy_combinations`) -/

/-- The `combo_score` of one bundle:
`3·|query ∩ suitable_for words| + 5·|bundle members ∩ primary remedy ids|`
(both factors are Python ints, so the score is an integer). -/
def comboScore (symptom_words : List String) (primary_remedy_ids : List String)
    (combo : Combo) : ℤ :=
  3 * (countInter symptom_words
        (pyWords (String.intercalate " " combo.suitable_for)) : ℤ)
    + 5 * ((combo.remedies.filter (· ∈ primary_remedy_ids)).length : ℤ)

/-- An entry of a suggestion's `remedies` detail list:
name, per-member drop count (`concentrations.get(remedy_id, 2)`), summary. -/
structure ComboRemedyDetail where
  id : String
  name : String
  drops : Nat
  summary : String
deriving DecidableEq, Inhabited

/-- One suggestion dict of `suggest_remedy_combinations`. -/
structure ComboSuggestion where
  combination_id : String
  name : String
  remedies : List ComboRemedyDetail
  total_drops : Nat
  bottle_size : String
  dosage : String
  purpose : String
  suitable_for : List String
  relevance_score : ℤ
  matching_primary : List String
deriving DecidableEq, Inhabited

/-- The suggestion dict built for one bundle with a positive score.
`matching_primary` is `list(set(members) ∩ set(primary_ids))`; Python's set
iteration order is unspecified, the model lists the matching members in
bundle member order. -/
def mkComboSuggestion (combination_id : String) (combo : Combo)
    (combo_score : ℤ) (primary_remedy_ids : List String) : ComboSuggestion :=
  { combination_id := combination_id
    name := combo.name
    remedies := combo.remedies.filterMap fun remedy_id =>
      (lookupRemedy remedy_id).map fun rd =>
        ⟨remedy_id, rd.name,
          ((combo.concentrations.find? (fun c => c.1 == remedy_id)).map
            Prod.snd).getD 2,
          rd.summary⟩
    total_drops := combo.total_drops
    bottle_size := combo.bottle_size
    dosage := combo.dosage
    purpose := combo.purpose
    suitable_for := combo.suitable_for
    relevance_score := min 10 (max 1 combo_score)
    matching_primary := combo.remedies.filter (· ∈ primary_remedy_ids) }

/-- The `suggestions` list before sorting: one entry per bundle with
`combo_score > 0`, in bundle definition order. -/
def comboCandidates (symptoms : String) (primary_remedy_ids : List String) :
    List ComboSuggestion :=
  REMEDY_COMBINATIONS.filterMap fun p =>
    let combo_score := comboScore (tokenSet symptoms) primary_remedy_ids p.2
    if 0 < combo_score then
      some (mkComboSuggestion p.1 p.2 combo_score primary_remedy_ids)
    else none

/-- `suggest_remedy_combinations(symptoms, primary_remedies)`: build the
candidates, stable-sort them descending by the clamped `relevance_score`
(`suggestions.sort(key=lambda x: x['relevance_score'], reverse=True)`),
and return the first two.  The caller extracts
`primary_remedy_ids = [r['remedy_id'] for r in primary_remedies]`, which is
passed here directly. -/
def suggest_remedy_combinations (symptoms : String)
    (primary_remedy_ids : List String) : List ComboSuggestion :=
  (((comboCandidates symptoms primary_remedy_ids).insertionSort
    fun a b => b.relevance_score ≤ a.relevance_score).take 2)

/-! ## NLP analysis and the orchestrator -/

/-- The f-string prompt of `analyze_text_sentiment` (whitespace condensed). -/
def analysisPrompt (text : String) : String :=
  "Analyze this text and extract emotional symptoms that relate to Bach flower remedies:\n\nText: \""
    ++ text
    ++ "\"\n\nPlease identify:\n1. Primary emotional state\n2. Key symptoms present\n3. Underlying emotional patterns\n4. Suggested Bach flower remedy categories\n\nReturn only the emotional symptoms as a comma-separated list that could match Bach flower remedy indications."

/-- The dict returned by `analyze_text_sentiment`. -/
structure NlpAnalysis where
  polarity : ℚ
  subjectivity : ℚ
  extracted_symptoms : String
  original_text : String
deriving DecidableEq

/-- `analyze_text_sentiment(text)`: TextBlob sentiment, then the LLM
extraction; on LLM failure (`except Exception`) the extracted symptoms fall
back to the original text unchanged. -/
def analyze_text_sentiment (llm : LlmOracle) (blob : SentimentOracle)
    (text : String) : NlpAnalysis :=
  { polarity := (blob text).1
    subjectivity := (blob text).2
    extracted_symptoms :=
      match llm (analysisPrompt text) with
      | .ok response => response.trim
      | .error _ => text
    original_text := text }

/-- The request body of the `/recommendations` endpoint. -/
structure RecommendationRequest where
  symptoms : String
  nlp_mode : Bool
deriving DecidableEq

/-- The `nlp_analysis` echo in the response. -/
structure NlpSummary where
  sentiment_polarity : ℚ
  sentiment_subjectivity : ℚ
  original_text : String
deriving DecidableEq

/-- The response dict of `get_recommendations` (the static `scoring_info`
strings are constant and omitted). -/
structure Recommendation where
  vector_recommendation : Option VectorMatch
  knowledge_graph_recommendation : Option GraphMatch
  combination_suggestions : List ComboSuggestion
  symptoms_analyzed : String
  nlp_mode : Bool
  nlp_analysis : Option NlpSummary
deriving DecidableEq

/-- `raise HTTPException(status_code=..., detail=...)`. -/
structure HTTPException where
  status_code : Nat
  detail : String
deriving DecidableEq

/-- `get_recommendations(request)`: optionally run the NLP analysis and
replace the working text with its extracted symptoms, run both matchers with
`top_k = 1`, feed the union of their picks to the bundle recommender and
assemble the response.  The surrounding `try/except` re-raises any exception
as a 500 `HTTPException`; the body itself raises none, and in particular
performs no emptiness validation of `request.symptoms`. -/
def get_recommendations (sim : SimOracle) (llm : LlmOracle)
    (blob : SentimentOracle) (g : Graph) (request : RecommendationRequest) :
    Except HTTPException Recommendation :=
  let nlp_analysis :=
    if request.nlp_mode then
      some (analyze_text_sentiment llm blob request.symptoms)
    else none
  let symptoms_text :=
    match nlp_analysis with
    | some a => a.extracted_symptoms
    | none => request.symptoms
  let vector_matches := find_vector_matches sim symptoms_text 1
  let graph_matches := find_knowledge_graph_matches g symptoms_text 1
  let all_matches :=
    vector_matches.map (fun m => m.remedy_id)
      ++ graph_matches.map (fun m => m.remedy_id)
  let combination_suggestions :=
    suggest_remedy_combinations symptoms_text all_matches
  Except.ok
    { vector_recommendation := vector_matches.head?
      knowledge_graph_recommendation := graph_matches.head?
      combination_suggestions := combination_suggestions
      symptoms_analyzed := symptoms_text
      nlp_mode := request.nlp_mode
      nlp_analysis := nlp_analysis.map fun a =>
        ⟨a.polarity, a.subjectivity, a.original_text⟩ }

/-! ## Single-remedy lookup (`get_remedy_details`) -/

/-- An entry of the details' `connected_remedies` list. -/
structure DetailConnected where
  id : String
  name : String
  category : String
deriving DecidableEq

/-- The response of `/remedies/{remedy_id}`. -/
structure RemedyDetails where
  remedy : Remedy
  connected_remedies : List DetailConnected
deriving DecidableEq

/-- `get_remedy_details(remedy_id)`: 404 when the key is not in
`BACH_REMEDIES`, otherwise the remedy with its graph neighbours. -/
def get_remedy_details (g : Graph) (remedy_id : String) :
    Except HTTPException RemedyDetails :=
  match lookupRemedy remedy_id with
  | none => Except.error ⟨404, "Remedy not found"⟩
  | some remedy_data =>
    Except.ok
      { remedy := remedy_data
        connected_remedies :=
          if g.hasNode remedy_id then
            (g.neighbors remedy_id).filterMap fun neighbor =>
              (lookupRemedy neighbor).map fun nd =>
                ⟨neighbor, nd.name, nd.category⟩
          else []
        }

/-! ## Helper lemmas -/

lemma length_topIndices (vals : List ℚ) (k : ℕ) (h1 : 0 < k)
    (h2 : k ≤ vals.length) : (topIndices vals k).length = k := by
  have hlen : (argsortAsc vals).length = vals.length := by
    simp [argsortAsc]
  simp only [topIndices, if_neg (Nat.pos_iff_ne_zero.mp h1),
    List.length_reverse, List.length_drop, hlen]
  omega

lemma simList_length (sim : SimOracle) (q : String) :
    (simList sim q).length = BACH_REMEDIES.length := by
  simp [simList]

lemma find_vector_matches_length (sim : SimOracle) (q : String) (k : ℕ)
    (h1 : 0 < k) (h2 : k ≤ BACH_REMEDIES.length) :
    (find_vector_matches sim q k).length = k := by
  rw [find_vector_matches, List.length_map,
    length_topIndices _ _ h1 (by rw [simList_length]; exact h2)]

lemma bach_length_pos : 0 < BACH_REMEDIES.length := by decide

lemma find_vector_matches_one_isSome (sim : SimOracle) (q : String) :
    (find_vector_matches sim q 1).head?.isSome = true := by
  have h := find_vector_matches_length sim q 1 Nat.one_pos bach_length_pos
  cases hm : find_vector_matches sim q 1 with
  | nil => rw [hm] at h; simp at h
  | cons a l => simp

lemma tokenSet_empty : tokenSet "" = [] := rfl

lemma lexicalScore_nil (r : Remedy) : lexicalScore [] r = 0 := by
  simp [lexicalScore, countInter]

lemma fkgm_eq_nil {g : Graph} {q : String} {k : ℕ}
    (h : ∀ p ∈ lexScores q, p.2 ≤ 0) :
    find_knowledge_graph_matches g q k = [] := by
  rw [find_knowledge_graph_matches, List.filterMap_eq_nil_iff]
  intro p hp
  have hp' : p ∈ lexScores q := by
    have h1 : p ∈ (lexScores q).insertionSort fun a b => b.2 ≤ a.2 :=
      List.mem_of_mem_take hp
    exact (List.mem_insertionSort _).mp h1
  have := h p hp'
  simp only [ite_eq_right_iff]
  intro hpos
  exact absurd (lt_of_lt_of_le hpos this) (lt_irrefl 0)

lemma lexScores_empty_le : ∀ p ∈ lexScores "", p.2 ≤ 0 := by
  intro p hp
  rw [lexScores] at hp
  obtain ⟨e, _, rfl⟩ := List.mem_map.mp hp
  rw [tokenSet_empty, lexicalScore_nil]

/-! ## C1, C7, C8, C9 -/

/-- C1: the spec and the repo's own test (`test_error_handling`, empty
symptoms) require `get_recommendations` to fail on an empty or blank query
before invoking any matcher.  The code performs no such validation: on
`symptoms = ""` both matchers run and the endpoint returns a 200 response
whose vector slot is populated (and whose lexical slot is `None`, every
lexical raw score being 0).  This theorem evaluates the embedded endpoint
at the failing input: for every choice of collaborators and graph state,
the result is a successful response, not an error. -/
theorem C1_empty_query_not_rejected (sim : SimOracle) (llm : LlmOracle)
    (blob : SentimentOracle) (g : Graph) :
    (get_recommendations sim llm blob g ⟨"", false⟩).toOption.map
        (fun r => (r.vector_recommendation.isSome,
                   r.knowledge_graph_recommendation.isNone,
                   r.symptoms_analyzed))
      = some (true, true, "") := by
  have hveclen := find_vector_matches_one_isSome sim ""
  have hkg : find_knowledge_graph_matches g "" 1 = [] :=
    fkgm_eq_nil lexScores_empty_le
  simp [get_recommendations, Except.toOption, hkg, hveclen]

/-- C7: when extraction is requested and the extraction provider fails,
`analyze_text_sentiment` catches the exception and uses the original,
unmodified text as the extracted symptoms, and `get_recommendations` still
succeeds, analysing exactly the original query text. -/
theorem C7_extraction_failure_degrades_gracefully (sim : SimOracle)
    (blob : SentimentOracle) (g : Graph) (err text : String) :
    (analyze_text_sentiment (fun _ => .error err) blob text).extracted_symptoms
        = text
    ∧ (get_recommendations sim (fun _ => .error err) blob g
        ⟨text, true⟩).toOption.map (fun r => r.symptoms_analyzed) = some text := by
  constructor
  · rfl
  · simp [get_recommendations, Except.toOption, analyze_text_sentiment]

/-- `initialize_knowledge_graph` ignores the prior graph state entirely:
it starts from the cleared (empty) graph. -/
lemma initialize_knowledge_graph_eq (x : Graph) :
    initialize_knowledge_graph x
      = buildKnowledgeGraph BACH_REMEDIES ⟨[], []⟩ := by
  unfold initialize_knowledge_graph Graph.clear
  rfl

/-- C8: `initialize_knowledge_graph` first clears the global graph and then
rebuilds it from the unchanged catalog, so rebuilding twice in a row yields
exactly the graph of the first rebuild, and two rebuilds from any prior
states agree on nodes, edges and stored weights. -/
theorem C8_rebuild_idempotent_and_deterministic (g g' : Graph) :
    initialize_knowledge_graph (initialize_knowledge_graph g)
        = initialize_knowledge_graph g
    ∧ (initialize_knowledge_graph g).nodes = (initialize_knowledge_graph g').nodes
    ∧ (initialize_knowledge_graph g).edges = (initialize_knowledge_graph g').edges := by
  simp [initialize_knowledge_graph_eq]


/-- C9: looking up an item key that is not in the catalog fails with the
404 "Remedy not found" error; no default or empty object is returned. -/
theorem C9_unknown_key_not_found (g : Graph) (remedy_id : String)
    (h : remedy_id ∉ BACH_REMEDIES.map Prod.fst) :
    get_remedy_details g remedy_id = Except.error ⟨404, "Remedy not found"⟩ := by
  have hnone : lookupRemedy remedy_id = none := by
    rw [lookupRemedy, Option.map_eq_none', List.find?_eq_none]
    intro p hp
    simp only [beq_iff_eq]
    intro hc
    exact h (List.mem_map.mpr ⟨p, hp, hc⟩)
  rw [get_remedy_details, hnone]

/-- Witness for C9 at the concrete unknown key "lavender". -/
theorem C9_unknown_key_not_found_witness :
    "lavender" ∉ BACH_REMEDIES.map Prod.fst
    ∧ get_remedy_details ⟨[], []⟩ "lavender"
        = Except.error ⟨404, "Remedy not found"⟩ :=
  ⟨by decide, C9_unknown_key_not_found ⟨[], []⟩ "lavender" (by decide)⟩

/-! ## C5, C6, C10 -/

lemma pyRound_lower (q : ℚ) : ⌊q⌋ ≤ pyRound q := by
  unfold pyRound; split_ifs <;> omega

lemma pyRound_upper (q : ℚ) : pyRound q ≤ ⌊q⌋ + 1 := by
  unfold pyRound; split_ifs <;> omega

/-- Round-half-to-even is monotone non-decreasing. -/
lemma pyRound_mono {a b : ℚ} (h : a ≤ b) : pyRound a ≤ pyRound b := by
  rcases lt_or_le ⌊a⌋ ⌊b⌋ with hf | hf
  · calc pyRound a ≤ ⌊a⌋ + 1 := pyRound_upper a
      _ ≤ ⌊b⌋ := by omega
      _ ≤ pyRound b := pyRound_lower b
  · have hfe : ⌊a⌋ = ⌊b⌋ := le_antisymm (Int.floor_le_floor h) hf
    have hab : a - (⌊b⌋ : ℚ) ≤ b - (⌊b⌋ : ℚ) := by linarith
    unfold pyRound
    rw [hfe]
    split_ifs <;> first | omega | linarith

lemma relevanceOfSim_mono {s t : ℚ} (h : s ≤ t) :
    relevanceOfSim s ≤ relevanceOfSim t := by
  unfold relevanceOfSim
  have := pyRound_mono (mul_le_mul_of_nonneg_right h (by norm_num : (0:ℚ) ≤ 10))
  exact min_le_min le_rfl (max_le_max le_rfl this)

lemma relevanceOfSim_bounds (s : ℚ) :
    1 ≤ relevanceOfSim s ∧ relevanceOfSim s ≤ 10 :=
  ⟨le_min (by norm_num) (le_max_left 1 _), min_le_left _ _⟩

/-- C5: every vector match's relevance score is
`min(10, max(1, round(similarity * 10)))` computed from its own similarity
score; it always lies in `[1, 10]`, and as a function of the raw similarity
it is monotone non-decreasing. -/
theorem C5_vector_relevance_clamped_and_monotone (sim : SimOracle)
    (q : String) (k : ℕ) :
    (∀ m ∈ find_vector_matches sim q k,
        m.relevance_score = min 10 (max 1 (pyRound (m.similarity_score * 10)))
        ∧ 1 ≤ m.relevance_score ∧ m.relevance_score ≤ 10)
    ∧ ∀ s t : ℚ, s ≤ t → relevanceOfSim s ≤ relevanceOfSim t := by
  constructor
  · intro m hm
    rw [find_vector_matches] at hm
    obtain ⟨idx, _, rfl⟩ := List.mem_map.mp hm
    refine ⟨rfl, ?_, ?_⟩
    · exact (relevanceOfSim_bounds _).1
    · exact (relevanceOfSim_bounds _).2
  · exact fun s t h => relevanceOfSim_mono h

/-- C6: the lexical matcher never returns an item whose raw score is `≤ 0`
(zero-scored items are filtered out entirely), and when no item scores
above 0 it returns the empty list rather than an error. -/
theorem C6_lexical_scores_positive_or_empty (g : Graph) (q : String) (k : ℕ) :
    (∀ m ∈ find_knowledge_graph_matches g q k, 0 < m.raw_score)
    ∧ ((∀ p ∈ lexScores q, p.2 ≤ 0) →
        find_knowledge_graph_matches g q k = []) := by
  constructor
  · intro m hm
    rw [find_knowledge_graph_matches] at hm
    obtain ⟨p, _, hsome⟩ := List.mem_filterMap.mp hm
    by_cases hpos : 0 < p.2
    · rw [if_pos hpos] at hsome
      obtain rfl : mkGraphMatch g p.1 p.2 = m := Option.some.inj hsome
      exact hpos
    · rw [if_neg hpos] at hsome
      cases hsome
  · exact fun h => fkgm_eq_nil h

/-- C10: for a positive `top_k` not exceeding the catalog size, the vector
matcher returns exactly `top_k` matches (no similarity filtering), so the
`vector_recommendation` slot of every assembled response is populated. -/
theorem C10_vector_slot_always_populated (sim : SimOracle) (q : String)
    (k : ℕ) (h1 : 0 < k) (h2 : k ≤ BACH_REMEDIES.length) :
    (find_vector_matches sim q k).length = k
    ∧ ∀ (llm : LlmOracle) (blob : SentimentOracle) (g : Graph) (nlp : Bool),
        (get_recommendations sim llm blob g ⟨q, nlp⟩).toOption.map
            (fun r => r.vector_recommendation.isSome) = some true := by
  refine ⟨find_vector_matches_length sim q k h1 h2, ?_⟩
  intro llm blob g nlp
  cases nlp <;>
    simp [get_recommendations, Except.toOption, find_vector_matches_one_isSome]

/-- Witness for C10 at `top_k = 1` and a constant similarity oracle. -/
theorem C10_vector_slot_always_populated_witness :
    0 < 1 ∧ 1 ≤ BACH_REMEDIES.length
    ∧ (find_vector_matches (fun _ _ => 1) "anxiety" 1).length = 1 :=
  ⟨by decide, by decide,
    (C10_vector_slot_always_populated (fun _ _ => 1) "anxiety" 1
      (by decide) (by decide)).1⟩

/-! ## C2: the category pass overwrites association edge weights -/

lemma normPair_comm (a b : String) : normPair a b = normPair b a := by
  unfold normPair
  rcases le_total a b with h | h
  · rcases eq_or_lt_of_le h with rfl | hlt
    · simp
    · rw [if_pos h, if_neg (not_le.mpr hlt)]
  · rcases eq_or_lt_of_le h with rfl | hlt
    · simp
    · rw [if_pos h, if_neg (not_le.mpr hlt)]

lemma normPair_cases {a b u v : String} (h : normPair a b = normPair u v) :
    (a = u ∧ b = v) ∨ (a = v ∧ b = u) := by
  unfold normPair at h
  split_ifs at h <;> rw [Prod.mk.injEq] at h <;> obtain ⟨h1, h2⟩ := h
  · exact Or.inl ⟨h1, h2⟩
  · exact Or.inr ⟨h1, h2⟩
  · exact Or.inr ⟨h2, h1⟩
  · exact Or.inl ⟨h2, h1⟩

lemma lookup_setWeight (l : List ((String × String) × ℚ))
    (k k' : String × String) (w : ℚ) :
    lookupWeight (setWeight l k w) k'
      = if k' = k then some w else lookupWeight l k' := by
  induction l with
  | nil =>
    by_cases hk : k' = k
    · subst hk
      simp [setWeight, lookupWeight]
    · simp [setWeight, lookupWeight, hk, Ne.symm hk]
  | cons e es ih =>
    by_cases he : e.1 = k
    · by_cases hk : k' = k
      · subst hk
        simp [setWeight, lookupWeight, he]
      · simp [setWeight, lookupWeight, he, hk, Ne.symm hk]
    · by_cases hk : k' = k
      · subst hk
        simp [setWeight, lookupWeight, he, Ne.symm he, ih]
      · simp [setWeight, lookupWeight, he, hk, ih]

lemma edgeWeight_addEdge (g : Graph) (a b u v : String) (w : ℚ) :
    edgeWeight (g.addEdge a b w) u v
      = if normPair u v = normPair a b then some w else edgeWeight g u v := by
  unfold edgeWeight Graph.addEdge
  exact lookup_setWeight _ _ _ _

lemma edgeWeight_addEdge_other {g : Graph} {x c u v : String}
    (hx1 : x ≠ u) (hx2 : x ≠ v) (w : ℚ) :
    edgeWeight (g.addEdge x c w) u v = edgeWeight g u v := by
  rw [edgeWeight_addEdge, if_neg]
  intro h
  rcases normPair_cases h with ⟨h1, _⟩ | ⟨_, h2⟩
  · exact hx1 h1.symm
  · exact hx2 h2.symm

lemma edgeWeight_comm (g : Graph) (u v : String) :
    edgeWeight g u v = edgeWeight g v u := by
  unfold edgeWeight
  rw [normPair_comm]

lemma addNode_edges (g : Graph) (x : String) : (g.addNode x).edges = g.edges := by
  unfold Graph.addNode
  split_ifs <;> rfl

lemma edgeWeight_addNode (g : Graph) (x u v : String) :
    edgeWeight (g.addNode x) u v = edgeWeight g u v := by
  unfold edgeWeight
  rw [addNode_edges]

lemma addCombinationEdges_other {catalog : List (String × Remedy)}
    {g : Graph} {x u v : String} {dx : Remedy}
    (hx1 : x ≠ u) (hx2 : x ≠ v) :
    edgeWeight (addCombinationEdges catalog g x dx) u v = edgeWeight g u v := by
  unfold addCombinationEdges
  generalize dx.combinations = cs
  induction cs generalizing g with
  | nil => rfl
  | cons c cs ih =>
    rw [List.foldl_cons, ih]
    split_ifs with hc
    · exact edgeWeight_addEdge_other hx1 hx2 _
    · rfl

lemma addCategoryEdges_other {l : List (String × Remedy)}
    {g : Graph} {x u v : String} {dx : Remedy}
    (hx1 : x ≠ u) (hx2 : x ≠ v) :
    edgeWeight (addCategoryEdges l g x dx) u v = edgeWeight g u v := by
  unfold addCategoryEdges
  induction l generalizing g with
  | nil => rfl
  | cons o os ih =>
    rw [List.foldl_cons, ih]
    split_ifs with hc
    · exact edgeWeight_addEdge_other hx1 hx2 _
    · rfl

lemma graphStep_other {catalog : List (String × Remedy)} {g : Graph}
    {e : String × Remedy} {u v : String}
    (hx1 : e.1 ≠ u) (hx2 : e.1 ≠ v) :
    edgeWeight (graphStep catalog g e) u v = edgeWeight g u v := by
  unfold graphStep
  rw [addCategoryEdges_other hx1 hx2, addCombinationEdges_other hx1 hx2,
    edgeWeight_addNode]

/-- Once the weight of `{rid, t}` is 0.6, the category pass keeps it 0.6:
every write it performs is a 0.6 write. -/
lemma addCategoryEdges_keeps (l : List (String × Remedy)) (g : Graph)
    (rid t : String) (rdata : Remedy)
    (h : edgeWeight g rid t = some 0.6) :
    edgeWeight (addCategoryEdges l g rid rdata) rid t = some 0.6 := by
  unfold addCategoryEdges
  induction l generalizing g with
  | nil => exact h
  | cons o os ih =>
    rw [List.foldl_cons]
    apply ih
    split_ifs with hc
    · rw [edgeWeight_addEdge]
      split_ifs <;> [rfl; exact h]
    · exact h

lemma addCategoryEdges_cons (o : String × Remedy) (os : List (String × Remedy))
    (g : Graph) (rid : String) (rdata : Remedy) :
    addCategoryEdges (o :: os) g rid rdata
      = addCategoryEdges os
          (if o.1 ≠ rid ∧ o.2.category = rdata.category then
            g.addEdge rid o.1 0.6 else g) rid rdata := rfl

/-- The category pass of node `rid` writes weight 0.6 on `{rid, v}` whenever
some catalog entry `(v, dv)` shares `rdata`'s category and `v ≠ rid`. -/
lemma addCategoryEdges_sets (rid : String) (rdata dv : Remedy) (v : String)
    (hne : v ≠ rid) (hcat : dv.category = rdata.category) :
    ∀ (l : List (String × Remedy)) (g : Graph), (v, dv) ∈ l →
      edgeWeight (addCategoryEdges l g rid rdata) rid v = some 0.6 := by
  intro l
  induction l with
  | nil =>
    intro g hmem
    cases hmem
  | cons o os ih =>
    intro g hmem
    rw [addCategoryEdges_cons]
    rcases List.mem_cons.mp hmem with heq | hmem'
    · subst heq
      apply addCategoryEdges_keeps
      rw [if_pos ⟨hne, hcat⟩, edgeWeight_addEdge, if_pos rfl]
    · exact ih _ hmem'

lemma keys_nodup_eq {l : List (String × Remedy)}
    (hnd : (l.map Prod.fst).Nodup) {k : String} {a b : Remedy}
    (ha : (k, a) ∈ l) (hb : (k, b) ∈ l) : a = b := by
  induction l with
  | nil => cases ha
  | cons e es ih =>
    rw [List.map_cons, List.nodup_cons] at hnd
    rcases List.mem_cons.mp ha with ha' | ha' <;>
      rcases List.mem_cons.mp hb with hb' | hb'
    · rw [← hb'] at ha'
      exact congrArg Prod.snd ha'
    · exfalso
      exact hnd.1 (ha' ▸ List.mem_map.mpr ⟨(k, b), hb', rfl⟩)
    · exfalso
      exact hnd.1 (hb' ▸ List.mem_map.mpr ⟨(k, a), ha', rfl⟩)
    · exact ih hnd.2 ha' hb'

lemma foldl_graphStep_other {catalog : List (String × Remedy)} {u v : String} :
    ∀ (l : List (String × Remedy)) (g : Graph),
      (∀ x ∈ l, x.1 ≠ u ∧ x.1 ≠ v) →
      edgeWeight (l.foldl (graphStep catalog) g) u v = edgeWeight g u v := by
  intro l
  induction l with
  | nil => intro g _; rfl
  | cons e es ih =>
    intro g hno
    rw [List.foldl_cons, ih _ (fun x hx => hno x (List.mem_cons_of_mem e hx)),
      graphStep_other (hno e (List.mem_cons_self e es)).1
        (hno e (List.mem_cons_self e es)).2]

/-- The core induction: folding the per-node graph step over any node list
that still contains an entry keyed `u` or `v` ends with `{u, v}` weighing
0.6, provided `(u, du)` and `(v, dv)` are catalog entries with the same
category, `u ≠ v`, and the catalog keys are distinct. -/
lemma buildFold_sets {catalog : List (String × Remedy)} {u v : String}
    {du dv : Remedy} (hnd : (catalog.map Prod.fst).Nodup)
    (hu : (u, du) ∈ catalog) (hv : (v, dv) ∈ catalog)
    (hne : u ≠ v) (hcat : du.category = dv.category) :
    ∀ (l : List (String × Remedy)) (g : Graph),
      (∀ e ∈ l, e ∈ catalog) → (∃ e ∈ l, e.1 = u ∨ e.1 = v) →
      edgeWeight (l.foldl (graphStep catalog) g) u v = some 0.6 := by
  intro l
  induction l with
  | nil =>
    intro g _ hex
    obtain ⟨e, he, _⟩ := hex
    cases he
  | cons e es ih =>
    intro g hsub hex
    rw [List.foldl_cons]
    by_cases hrest : ∃ x ∈ es, x.1 = u ∨ x.1 = v
    · exact ih _ (fun x hx => hsub x (List.mem_cons_of_mem e hx)) hrest
    · push_neg at hrest
      have hekey : e.1 = u ∨ e.1 = v := by
        obtain ⟨x, hx, hxk⟩ := hex
        rcases List.mem_cons.mp hx with rfl | hx'
        · exact hxk
        · exact absurd hxk (by
            have := hrest x hx'
            tauto)
      rw [foldl_graphStep_other es _ (fun x hx => by
        have := hrest x hx
        constructor <;> tauto)]
      have hecat : e ∈ catalog := hsub e (List.mem_cons_self e es)
      rcases hekey with heu | hev
      · -- `e` is the entry keyed `u`: its category pass writes `{u, v}` last
        have hdata : e.2 = du := by
          apply keys_nodup_eq hnd _ hu
          rw [← heu]
          exact hecat
        unfold graphStep
        rw [heu, hdata]
        exact addCategoryEdges_sets u du dv v (Ne.symm hne) hcat.symm _ _ hv
      · -- `e` is the entry keyed `v`: symmetric, via `edgeWeight_comm`
        have hdata : e.2 = dv := by
          apply keys_nodup_eq hnd _ hv
          rw [← hev]
          exact hecat
        rw [edgeWeight_comm]
        unfold graphStep
        rw [hev, hdata]
        exact addCategoryEdges_sets v dv du u hne hcat _ _ hu

lemma bach_keys_nodup : (BACH_REMEDIES.map Prod.fst).Nodup := by decide

/-- C2: for every pair of catalog items that share a category — in
particular every pair connected both by an explicit association
(`combinations`) and by a shared category — the finally stored edge weight
in the built graph is 0.6: the category pass runs after the association
pass of each node and its `add_edge` overwrites the 0.8 weight on the same
edge key, so the stronger association weight is never preserved. -/
theorem C2_category_pass_overwrites_association_weight (g0 : Graph)
    (u v : String) (du dv : Remedy)
    (hu : (u, du) ∈ BACH_REMEDIES) (hv : (v, dv) ∈ BACH_REMEDIES)
    (hne : u ≠ v) (hcat : du.category = dv.category)
    (hassoc : v ∈ du.combinations ∨ u ∈ dv.combinations) :
    edgeWeight (initialize_knowledge_graph g0) u v = some 0.6 := by
  rw [initialize_knowledge_graph_eq]
  unfold buildKnowledgeGraph
  exact buildFold_sets bach_keys_nodup hu hv hne hcat BACH_REMEDIES ⟨[], []⟩
    (fun e he => he) ⟨(u, du), hu, Or.inl rfl⟩

/-- Witness for C2: aspen and mimulus are associated (mimulus is in aspen's
`combinations`) and share the category "fear"; the built graph stores 0.6
on their edge. -/
theorem C2_category_pass_overwrites_association_weight_witness :
    ("aspen", (lookupRemedy "aspen").getD default) ∈ BACH_REMEDIES
    ∧ ("mimulus", (lookupRemedy "mimulus").getD default) ∈ BACH_REMEDIES
    ∧ "aspen" ≠ "mimulus"
    ∧ ((lookupRemedy "aspen").getD default).category
        = ((lookupRemedy "mimulus").getD default).category
    ∧ "mimulus" ∈ ((lookupRemedy "aspen").getD default).combinations
    ∧ edgeWeight (initialize_knowledge_graph ⟨[], []⟩) "aspen" "mimulus"
        = some 0.6 :=
  ⟨by decide, by decide, by decide, by decide, by decide,
    C2_category_pass_overwrites_association_weight ⟨[], []⟩ "aspen" "mimulus"
      ((lookupRemedy "aspen").getD default)
      ((lookupRemedy "mimulus").getD default)
      (by decide) (by decide) (by decide) (by decide) (Or.inl (by decide))⟩

/-! ## C3: the vector matcher's tie-break -/

lemma simLex_total (vals : List ℚ) : ∀ i j, simLex vals i j ∨ simLex vals j i := by
  intro i j
  rcases lt_trichotomy (vals.getD i 0) (vals.getD j 0) with h | h | h
  · exact Or.inl (Or.inl h)
  · rcases Nat.le_total i j with hij | hij
    · exact Or.inl (Or.inr ⟨h, hij⟩)
    · exact Or.inr (Or.inr ⟨h.symm, hij⟩)
  · exact Or.inr (Or.inl h)

lemma simLex_trans (vals : List ℚ) :
    ∀ a b c, simLex vals a b → simLex vals b c → simLex vals a c := by
  intro a b c hab hbc
  rcases hab with h1 | ⟨h1, h1'⟩ <;> rcases hbc with h2 | ⟨h2, h2'⟩
  · exact Or.inl (h1.trans h2)
  · exact Or.inl (h2 ▸ h1)
  · exact Or.inl (h1 ▸ h2)
  · exact Or.inr ⟨h1.trans h2, h1'.trans h2'⟩

lemma argsortAsc_sorted (vals : List ℚ) :
    (argsortAsc vals).Pairwise (simLex vals) := by
  have ht : IsTotal ℕ (simLex vals) := ⟨simLex_total vals⟩
  have htr : IsTrans ℕ (simLex vals) := ⟨simLex_trans vals⟩
  exact @List.sorted_insertionSort ℕ (simLex vals) _ ht htr _

lemma argsortAsc_nodup (vals : List ℚ) : (argsortAsc vals).Nodup :=
  (List.perm_insertionSort (simLex vals) _).nodup_iff.mpr
    (List.nodup_range _)

/-- The ascending argsort is strictly sorted by (value, index)
lexicographically. -/
lemma argsortAsc_strict (vals : List ℚ) :
    (argsortAsc vals).Pairwise
      (fun i j => vals.getD i 0 < vals.getD j 0
        ∨ (vals.getD i 0 = vals.getD j 0 ∧ i < j)) := by
  have := (argsortAsc_sorted vals).and (argsortAsc_nodup vals)
  refine this.imp ?_
  rintro a b ⟨hr | ⟨hr, hr'⟩, hne⟩
  · exact Or.inl hr
  · exact Or.inr ⟨hr, lt_of_le_of_ne hr' hne⟩

lemma mem_argsortAsc {vals : List ℚ} {j : ℕ} :
    j ∈ argsortAsc vals ↔ j < vals.length := by
  rw [argsortAsc, List.mem_insertionSort, List.mem_range]

/-- The selected indices are listed in strictly decreasing
(value, index)-lexicographic order: larger similarities first, and among
equal similarities the larger catalog index first. -/
lemma topIndices_pairwise (vals : List ℚ) (k : ℕ) :
    (topIndices vals k).Pairwise
      (fun i j => vals.getD j 0 < vals.getD i 0
        ∨ (vals.getD i 0 = vals.getD j 0 ∧ j < i)) := by
  have hstrict := argsortAsc_strict vals
  have himp :
      ∀ {a b : ℕ},
        (vals.getD a 0 < vals.getD b 0
          ∨ (vals.getD a 0 = vals.getD b 0 ∧ a < b)) →
        (flip (fun i j => vals.getD j 0 < vals.getD i 0
          ∨ (vals.getD i 0 = vals.getD j 0 ∧ j < i))) a b := by
    rintro a b (h | ⟨h, h'⟩)
    · exact Or.inl h
    · exact Or.inr ⟨h.symm, h'⟩
  unfold topIndices
  split_ifs with hk
  · exact List.pairwise_reverse.mpr (hstrict.imp himp)
  · exact List.pairwise_reverse.mpr
      ((hstrict.sublist (List.drop_sublist _ _)).imp himp)

/-- Every unselected index is strictly (value, index)-lexicographically
below every selected one: the selection takes the `top_k` largest. -/
lemma topIndices_boundary (vals : List ℚ) (k : ℕ) :
    ∀ i ∈ topIndices vals k, ∀ j, j < vals.length →
      j ∉ topIndices vals k →
      (vals.getD j 0 < vals.getD i 0
        ∨ (vals.getD j 0 = vals.getD i 0 ∧ j < i)) := by
  intro i hi j hjlen hjn
  unfold topIndices at hi hjn
  split_ifs at hi hjn with hk
  · exact absurd (List.mem_reverse.mpr (mem_argsortAsc.mpr hjlen)) hjn
  · rw [List.mem_reverse] at hi hjn
    have hjmem : j ∈ argsortAsc vals := mem_argsortAsc.mpr hjlen
    have hsplit := List.take_append_drop
      ((argsortAsc vals).length - k) (argsortAsc vals)
    have hjtake : j ∈ (argsortAsc vals).take ((argsortAsc vals).length - k) := by
      rcases List.mem_append.mp (by rw [hsplit]; exact hjmem) with h | h
      · exact h
      · exact absurd h hjn
    have hstrict := argsortAsc_strict vals
    rw [← hsplit] at hstrict
    exact (List.pairwise_append.mp hstrict).2.2 j hjtake i hi

lemma find_vector_matches_ids (sim : SimOracle) (q : String) (k : ℕ) :
    (find_vector_matches sim q k).map (fun m => m.remedy_id)
      = (topIndices (simList sim q) k).map
          (fun idx => (BACH_REMEDIES.getD idx ("", default)).1) := by
  rw [find_vector_matches, List.map_map]
  rfl

/-- C3 (amended): the vector matcher selects the `top_k` items by descending
similarity, but the tie-break is the opposite of catalog order: the code
reverses the tail of an ascending `argsort` (modelled as the stable
ascending sort), so among items with equal similarity the one defined
*later* in catalog iteration order is selected and listed first
(last-defined item wins).  The selected index list is strictly decreasing
in the (similarity, catalog index) lexicographic order, and every
unselected index is lexicographically below every selected one. -/
theorem C3_descending_with_last_defined_tie_break (sim : SimOracle)
    (q : String) (k : ℕ) :
    ((topIndices (simList sim q) k).Pairwise
      (fun i j => (simList sim q).getD j 0 < (simList sim q).getD i 0
        ∨ ((simList sim q).getD i 0 = (simList sim q).getD j 0 ∧ j < i)))
    ∧ (∀ i ∈ topIndices (simList sim q) k, ∀ j, j < (simList sim q).length →
        j ∉ topIndices (simList sim q) k →
        ((simList sim q).getD j 0 < (simList sim q).getD i 0
          ∨ ((simList sim q).getD j 0 = (simList sim q).getD i 0 ∧ j < i)))
    ∧ (find_vector_matches sim q k).map (fun m => m.remedy_id)
        = (topIndices (simList sim q) k).map
            (fun idx => (BACH_REMEDIES.getD idx ("", default)).1) :=
  ⟨topIndices_pairwise _ k, topIndices_boundary _ k,
    find_vector_matches_ids sim q k⟩

/-- Counterexample to C3 as stated: with a constant similarity oracle every
item ties, yet `top_k = 1` selects "willow" — the last-defined catalog item
— not the first-defined "agrimony". -/
theorem C3_first_defined_tie_break_counterexample :
    (simList (fun _ _ => 1) "anxiety").all (fun s => s = 1) = true
    ∧ (find_vector_matches (fun _ _ => 1) "anxiety" 1).map
        (fun m => m.remedy_id) = ["willow"]
    ∧ (BACH_REMEDIES.map Prod.fst).head? = some "agrimony"
    ∧ "willow" ≠ "agrimony" := by
  refine ⟨by decide, ?_, by decide, by decide⟩
  decide

/-! ## C4: bundle ranking -/

/-- The position of a bundle key in `REMEDY_COMBINATIONS` definition order. -/
def defIdx (combination_id : String) : ℕ :=
  (REMEDY_COMBINATIONS.map Prod.fst).indexOf combination_id

/-- `combo_score`, looked up by bundle key (the raw, unclamped overlap
score of the claim). -/
def overlapScore (symptoms : String) (primary_remedy_ids : List String)
    (combination_id : String) : ℤ :=
  comboScore (tokenSet symptoms) primary_remedy_ids
    ((lookupCombo combination_id).getD default)

/-- Inserting `x` into a list that is strictly sorted by
(key descending, idx ascending) lexicographic order, when `x`'s idx is
below every idx in the list (stability: `x` is the earliest-defined entry),
keeps the list lexicographically sorted. -/
lemma orderedInsert_lex {α : Type} (key : α → ℤ) (idx : α → ℕ) (x : α) :
    ∀ l : List α,
      l.Pairwise (fun a b => key b < key a ∨ (key a = key b ∧ idx a < idx b)) →
      (∀ y ∈ l, idx x < idx y) →
      (List.orderedInsert (fun a b => key b ≤ key a) x l).Pairwise
        (fun a b => key b < key a ∨ (key a = key b ∧ idx a < idx b)) := by
  intro l
  induction l with
  | nil => intro _ _; simp
  | cons y ys ih =>
    intro hp hidx
    rw [List.pairwise_cons] at hp
    obtain ⟨hy, hys⟩ := hp
    by_cases hr : key y ≤ key x
    · rw [List.orderedInsert, if_pos hr]
      rw [List.pairwise_cons]
      constructor
      · intro z hz
        rcases List.mem_cons.mp hz with rfl | hz'
        · rcases lt_or_eq_of_le hr with h | h
          · exact Or.inl h
          · exact Or.inr ⟨h.symm, hidx z (List.mem_cons_self _ _)⟩
        · have hzy : key z ≤ key y := by
            rcases hy z hz' with h | ⟨h, _⟩
            · exact le_of_lt h
            · exact le_of_eq h.symm
          rcases lt_or_eq_of_le (hzy.trans hr) with h | h
          · exact Or.inl h
          · exact Or.inr ⟨h.symm, hidx z (List.mem_cons_of_mem _ hz')⟩
      · exact List.pairwise_cons.mpr ⟨hy, hys⟩
    · rw [List.orderedInsert, if_neg hr]
      rw [List.pairwise_cons]
      constructor
      · intro z hz
        rcases (List.mem_orderedInsert _).mp hz with rfl | hz'
        · exact Or.inl (lt_of_not_le hr)
        · exact hy z hz'
      · exact ih hys fun z hz => hidx z (List.mem_cons_of_mem _ hz)

/-- Stable insertion sort descending by `key`, applied to a list whose
entries appear in strictly increasing `idx` order, yields a list strictly
sorted by (key descending, idx ascending): equal keys stay in original
(definition) order. -/
lemma insertionSort_lex {α : Type} (key : α → ℤ) (idx : α → ℕ) :
    ∀ l : List α, l.Pairwise (fun a b => idx a < idx b) →
      (List.insertionSort (fun a b => key b ≤ key a) l).Pairwise
        (fun a b => key b < key a ∨ (key a = key b ∧ idx a < idx b)) := by
  intro l
  induction l with
  | nil => intro _; simp
  | cons x xs ih =>
    intro hp
    rw [List.pairwise_cons] at hp
    rw [List.insertionSort]
    apply orderedInsert_lex
    · exact ih hp.2
    · intro y hy
      exact hp.1 y ((List.mem_insertionSort _).mp hy)

lemma combos_keys_nodup : (REMEDY_COMBINATIONS.map Prod.fst).Nodup := by decide

lemma combos_defIdx_pairwise :
    REMEDY_COMBINATIONS.Pairwise (fun p q => defIdx p.1 < defIdx q.1) := by
  decide

lemma find?_eq_of_mem_nodup {l : List (String × Combo)}
    (hnd : (l.map Prod.fst).Nodup) {p : String × Combo} (hp : p ∈ l) :
    l.find? (fun e => e.1 == p.1) = some p := by
  induction l with
  | nil => cases hp
  | cons e es ih =>
    rw [List.map_cons, List.nodup_cons] at hnd
    rcases List.mem_cons.mp hp with rfl | hp'
    · simp [List.find?_cons]
    · have hne : (e.1 == p.1) = false := by
        simp only [beq_eq_false_iff_ne, ne_eq]
        intro hc
        exact hnd.1 (hc ▸ List.mem_map.mpr ⟨p, hp', rfl⟩)
      simp only [List.find?_cons, hne]
      exact ih hnd.2 hp'

lemma lookupCombo_eq_of_mem {p : String × Combo} (hp : p ∈ REMEDY_COMBINATIONS) :
    lookupCombo p.1 = some p.2 := by
  rw [lookupCombo, find?_eq_of_mem_nodup combos_keys_nodup hp]
  rfl

lemma comboCandidates_pairwise (q : String) (ids : List String) :
    (comboCandidates q ids).Pairwise
      (fun a b => defIdx a.combination_id < defIdx b.combination_id) := by
  rw [comboCandidates, List.pairwise_filterMap]
  refine combos_defIdx_pairwise.imp ?_
  intro p p' hpp' b hb b' hb'
  simp only [Option.mem_def] at hb hb'
  split_ifs at hb hb' with h1 h2
  · obtain rfl := Option.some.inj hb
    obtain rfl := Option.some.inj hb'
    exact hpp'

/-- Every returned suggestion comes from a catalog bundle with positive
combo score, carries the clamped score as relevance, and records that
bundle's key. -/
lemma mem_comboCandidates {q : String} {ids : List String}
    {s : ComboSuggestion} (hs : s ∈ comboCandidates q ids) :
    0 < overlapScore q ids s.combination_id
    ∧ s.relevance_score = min 10 (max 1 (overlapScore q ids s.combination_id)) := by
  rw [comboCandidates] at hs
  obtain ⟨p, hp, hsome⟩ := List.mem_filterMap.mp hs
  by_cases hpos : 0 < comboScore (tokenSet q) ids p.2
  · rw [if_pos hpos] at hsome
    obtain rfl := Option.some.inj hsome
    have hcid : (mkComboSuggestion p.1 p.2
        (comboScore (tokenSet q) ids p.2) ids).combination_id = p.1 := rfl
    have hov : overlapScore q ids p.1 = comboScore (tokenSet q) ids p.2 := by
      rw [overlapScore, lookupCombo_eq_of_mem hp]
      rfl
    rw [hcid, hov]
    exact ⟨hpos, rfl⟩
  · rw [if_neg hpos] at hsome
    cases hsome

/-- C4 (amended): the bundle recommender keeps the bundles with positive
overlap score, sorts them descending by the *clamped* relevance score
`min(10, max(1, overlap_score))` — not by the raw overlap score — with ties
broken stably in bundle definition order, and returns the first two. -/
theorem C4_bundles_sorted_by_clamped_relevance (symptoms : String)
    (primary_remedy_ids : List String) :
    (suggest_remedy_combinations symptoms primary_remedy_ids).length ≤ 2
    ∧ (∀ s ∈ suggest_remedy_combinations symptoms primary_remedy_ids,
        0 < overlapScore symptoms primary_remedy_ids s.combination_id
        ∧ s.relevance_score
            = min 10 (max 1 (overlapScore symptoms primary_remedy_ids
                s.combination_id)))
    ∧ (suggest_remedy_combinations symptoms primary_remedy_ids).Pairwise
        (fun a b => b.relevance_score < a.relevance_score
          ∨ (a.relevance_score = b.relevance_score
              ∧ defIdx a.combination_id < defIdx b.combination_id)) := by
  refine ⟨?_, ?_, ?_⟩
  · rw [suggest_remedy_combinations]
    simp [List.length_take]
  · intro s hs
    have hs' : s ∈ comboCandidates symptoms primary_remedy_ids := by
      rw [suggest_remedy_combinations] at hs
      exact (List.mem_insertionSort _).mp (List.mem_of_mem_take hs)
    exact mem_comboCandidates hs'
  · rw [suggest_remedy_combinations]
    refine List.Pairwise.sublist (List.take_sublist _ _) ?_
    exact insertionSort_lex
      (fun s : ComboSuggestion => s.relevance_score)
      (fun s : ComboSuggestion => defIdx s.combination_id) _
      (comboCandidates_pairwise symptoms primary_remedy_ids)

/-- Counterexample to C4 as stated: on this query the surviving bundles'
raw overlap scores are 12 (anxiety_relief) and 15 (depression_support);
both clamp to relevance 10, the stable sort keeps definition order, and the
returned list is [anxiety_relief, depression_support] — *not* sorted
descending by the raw overlap score. -/
theorem C4_raw_overlap_sort_counterexample :
    (suggest_remedy_combinations
        "anxiety worry fear panic hopelessness discouragement despair apathy sadness"
        []).map (fun s => s.combination_id)
      = ["anxiety_relief", "depression_support"]
    ∧ overlapScore
        "anxiety worry fear panic hopelessness discouragement despair apathy sadness"
        [] "anxiety_relief" = 12
    ∧ overlapScore
        "anxiety worry fear panic hopelessness discouragement despair apathy sadness"
        [] "depression_support" = 15
    ∧ ¬ ((suggest_remedy_combinations
          "anxiety worry fear panic hopelessness discouragement despair apathy sadness"
          []).map
            (fun s => overlapScore
              "anxiety worry fear panic hopelessness discouragement despair apathy sadness"
              [] s.combination_id)).Pairwise (fun a b => b ≤ a) := by
  refine ⟨by decide, by decide, by decide, by decide⟩
